import Mathlib

/-!
Shallow embedding of the blog request handlers of `app/blog/views.py`:
`post_list`, `post_detail`, `post_share`, `post_comment`, `post_search`,
over an explicit store of posts, tags and comments.  Collaborators that the
views call but whose code is not under `src/` (the `Post.published` model
manager, the three forms, the `Comment` model, `Post.get_absolute_url`) are
modelled from the spec where the doc comment says so.
-/

/-- `Post.Status`: DRAFT or PUBLISHED. -/
inductive Status where
  | DRAFT
  | PUBLISHED
deriving DecidableEq, Repr

/-- A publish timestamp, split into the calendar date plus seconds within the
day, so that `publish__year/month/day` lookups and whole-timestamp
comparisons are both expressible. -/
structure DateTime where
  year : Nat
  month : Nat
  day : Nat
  secs : Nat
deriving DecidableEq, Repr

/-- Lexicographic (chronological) order on timestamps. -/
def DateTime.le (a b : DateTime) : Prop :=
  a.year < b.year ∨ (a.year = b.year ∧ (a.month < b.month ∨ (a.month = b.month ∧
    (a.day < b.day ∨ (a.day = b.day ∧ a.secs ≤ b.secs)))))

instance : DecidableRel DateTime.le := fun a b => by
  unfold DateTime.le; infer_instance

/-- A blog post row; `tags` is its set of tag ids (the many-to-many rows). -/
structure Post where
  id : Nat
  title : String
  slug : String
  body : String
  publish : DateTime
  status : Status
  tags : List Nat
deriving DecidableEq, Repr

/-- A taggit `Tag`: identity and unique slug. -/
structure Tag where
  id : Nat
  slug : String
deriving DecidableEq, Repr

/-- Modelled from the spec: the `Comment` model (`models.py` is not under
`src/`): owning post reference, author name, author email, body text, and an
active flag whose model default is true. -/
structure Comment where
  post : Nat
  name : String
  email : String
  body : String
  active : Bool
deriving DecidableEq, Repr

/-- Modelled from the spec: the `Post.published` model manager (`models.py`
is not under `src/`), per the glossary a published post is "a post with
status PUBLISHED and publish timestamp not in the future"; `now` is the
request time. -/
def published (db : List Post) (now : DateTime) : List Post :=
  db.filter (fun p => decide (p.status = Status.PUBLISHED ∧ DateTime.le p.publish now))

/-- How a view call can fail: `get_object_or_404` raises Http404 on zero
matches; `get` raises MultipleObjectsReturned (uncaught) on several;
`@require_POST` answers 405 to other methods. -/
inductive ViewError where
  | notFound
  | multipleReturned
  | methodNotAllowed
deriving DecidableEq, Repr

/-- `get_object_or_404` over an explicit store: the unique match, NotFound on
zero matches, MultipleObjectsReturned on several. -/
def get_object_or_404 (db : List α) (cond : α → Bool) : Except ViewError α :=
  match db.filter cond with
  | [] => .error .notFound
  | [x] => .ok x
  | _ :: _ :: _ => .error .multipleReturned

/-- Django `Paginator.num_pages` with `per_page = 3`, no orphans and
`allow_empty_first_page`: `ceil (max 1 count / 3)`; an empty object list
still has one (empty) page. -/
def num_pages (count : Nat) : Nat := (max 1 count + 2) / 3

/-- A digit string read as a natural number; `none` when empty or holding a
non-digit. -/
def digitsToNat (ds : List Char) : Option Nat :=
  if ds.isEmpty || !ds.all Char.isDigit then none
  else some (ds.foldl (fun acc c => acc * 10 + (c.toNat - Char.toNat '0')) 0)

/-- Python `int(str)`: surrounding whitespace is stripped, an optional sign
precedes the digits; anything else raises `ValueError` (`none` here). -/
def pyInt (s : String) : Option Int :=
  let cs := ((s.data.dropWhile Char.isWhitespace).reverse.dropWhile Char.isWhitespace).reverse
  match cs with
  | '-' :: ds => (digitsToNat ds).map (fun n => -(n : Int))
  | '+' :: ds => (digitsToNat ds).map (fun n => (n : Int))
  | ds => (digitsToNat ds).map (fun n => (n : Int))

/-- The page number the view resolves: `Paginator.validate_number` parses the
request parameter with Python `int` (modelled by `pyInt`); the view maps a
parse failure (`PageNotAnInteger`) to page 1 and an out-of-range number
(`EmptyPage`: below 1 or above `num_pages`) to the last page.  An absent
parameter defaults to the integer 1. -/
def resolve_page (count : Nat) (pageParam : Option String) : Nat :=
  match (match pageParam with | none => some (1 : Int) | some s => pyInt s) with
  | none => 1
  | some n => if n < 1 ∨ (num_pages count : Int) < n then num_pages count else n.toNat

/-- The rendering context of `post_list`: the page's posts, the resolved page
number, the page count, and the resolved tag (if any). -/
structure ListOk where
  posts : List Post
  page : Nat
  numPages : Nat
  tag : Option Tag
deriving DecidableEq, Repr

/-- `post_list` (`views.py` lines 14-41): published posts, optionally
filtered by a tag resolved from its slug via `get_object_or_404(Tag, ...)`,
paginated three per page. -/
def post_list (db : List Post) (tags : List Tag) (now : DateTime)
    (tag_slug : Option String) (pageParam : Option String) : Except ViewError ListOk :=
  let pl := published db now
  match tag_slug with
  | none =>
    let page := resolve_page pl.length pageParam
    .ok ⟨(pl.drop ((page - 1) * 3)).take 3, page, num_pages pl.length, none⟩
  | some s =>
    match get_object_or_404 tags (fun t => decide (t.slug = s)) with
    | .error e => .error e
    | .ok tag =>
      let pl := pl.filter (fun p => decide (tag.id ∈ p.tags))
      let page := resolve_page pl.length pageParam
      .ok ⟨(pl.drop ((page - 1) * 3)).take 3, page, num_pages pl.length, some tag⟩

/-- A row of the similar-posts query: a post with its annotated
`same_tags = Count('tags')` value, which under the `tags__in` filter counts
the tags it shares with the detail post. -/
structure AnnotatedPost where
  post : Post
  same_tags : Nat
deriving DecidableEq, Repr

/-- The `order_by('-same_tags', '-publish')` sort key as a relation: more
shared tags first, later publish timestamp first among equals. -/
def similarRel (a b : AnnotatedPost) : Prop :=
  b.same_tags < a.same_tags ∨
    (a.same_tags = b.same_tags ∧ DateTime.le b.post.publish a.post.publish)

instance : DecidableRel similarRel := fun a b => by
  unfold similarRel; infer_instance

instance : IsTotal AnnotatedPost similarRel := ⟨by
  intro a b; unfold similarRel DateTime.le; omega⟩

instance : IsTrans AnnotatedPost similarRel := ⟨by
  intro a b c h₁ h₂; unfold similarRel DateTime.le at *; omega⟩

/-- The similar-posts query of `post_detail` (`views.py` lines 58-62):
published posts other than `post` itself sharing at least one tag with it,
annotated with the shared-tag count, sorted by `-same_tags, -publish`, first
four rows. -/
def similar_posts (db : List Post) (now : DateTime) (post : Post) : List AnnotatedPost :=
  let base := (published db now).filter
    (fun p => decide ((∃ t, t ∈ p.tags ∧ t ∈ post.tags) ∧ p.id ≠ post.id))
  let annotated : List AnnotatedPost :=
    base.map (fun p => ⟨p, p.tags.countP (fun t => decide (t ∈ post.tags))⟩)
  (List.insertionSort similarRel annotated).take 4

/-- The rendering context of `post_detail`: the post, its active comments,
and the similar-posts rows. -/
structure DetailOk where
  post : Post
  comments : List Comment
  similar : List AnnotatedPost
deriving DecidableEq, Repr

/-- `post_detail` (`views.py` lines 44-71): `get_object_or_404` on status
PUBLISHED and the year/month/day of the publish timestamp and the slug, then
the post's active comments and its similar posts. -/
def post_detail (db : List Post) (comments : List Comment) (now : DateTime)
    (year month day : Nat) (post_slug : String) : Except ViewError DetailOk :=
  match get_object_or_404 db (fun p => decide (p.status = Status.PUBLISHED ∧
      p.publish.year = year ∧ p.publish.month = month ∧ p.publish.day = day ∧
      p.slug = post_slug)) with
  | .error e => .error e
  | .ok post =>
    .ok ⟨post,
         comments.filter (fun c => decide (c.post = post.id ∧ c.active = true)),
         similar_posts db now post⟩

/-- Concrete request time used by the witnesses. -/
def wNow : DateTime := ⟨2024, 6, 15, 0⟩

/-- Concrete published posts used by the witnesses. -/
def wP1 : Post := ⟨1, "Django", "django", "Django body", ⟨2024, 3, 1, 10⟩, Status.PUBLISHED, [1, 2]⟩

def wP2 : Post := ⟨2, "Lean", "lean", "Lean body", ⟨2024, 3, 2, 10⟩, Status.PUBLISHED, [1]⟩

def wP3 : Post := ⟨3, "Rust", "rust", "Rust body", ⟨2024, 3, 3, 10⟩, Status.PUBLISHED, [2]⟩

def wP4 : Post := ⟨4, "Go", "go", "Go body", ⟨2024, 3, 4, 10⟩, Status.PUBLISHED, [3]⟩

/-- Concrete post store used by the witnesses. -/
def wDb : List Post := [wP1, wP2, wP3, wP4]

/-- The context `post_list` renders for `wDb` and page parameter "7": two
pages exist, so the out-of-range request resolves to the last page. -/
def wListLast : ListOk := ⟨[wP4], 2, 2, none⟩

/-- A post with status PUBLISHED whose publish timestamp is later the same
day than `wNow`, i.e. in the future at request time: not a published post in
the spec's sense. -/
def wFuture : Post := ⟨9, "Future", "future", "future body", ⟨2024, 6, 15, 100⟩, Status.PUBLISHED, []⟩

/-- The context `post_detail` renders for `wDb` at (2024, 3, 1, "django"):
`wP2` and `wP3` each share one tag with `wP1`; `wP3` was published later, so
it comes first. -/
def wDetailOk : DetailOk := ⟨wP1, [], [⟨wP3, 1⟩, ⟨wP2, 1⟩]⟩

/-- The HTTP verb of a request, as far as these views distinguish it. -/
inductive Method where
  | GET
  | POST
deriving DecidableEq, Repr

/-- The fields `EmailPostForm` collects. -/
structure EmailPostData where
  name : String
  email : String
  «to» : String
  comments : String
deriving DecidableEq, Repr

/-- Modelled from the spec: minimal well-formedness of an email address for
the delegated format constraint (non-empty, holds an at sign). -/
def emailOk (s : String) : Bool := !(s.data = []) && s.data.contains '@'

/-- Modelled from the spec: `EmailPostForm` validation (`forms.py` is not
under `src/`).  The spec delegates "required/format constraints on
name/emails": sender name required, sender and recipient emails required and
well-formed, comment text optional.  Field-keyed errors; valid when none. -/
def emailPostFormErrors (d : EmailPostData) : List String :=
  (if d.name = "" then ["name"] else []) ++
  (if emailOk d.email then [] else ["email"]) ++
  (if emailOk d.«to» then [] else ["to"])

/-- The form the share view renders back: the fresh empty form on GET, or the
submitted data with its validation errors on POST. -/
inductive EmailFormState where
  | unbound
  | bound (data : EmailPostData) (errors : List String)
deriving DecidableEq, Repr

/-- One `send_mail` call: subject, body, from-address, recipient list. -/
structure Mail where
  subject : String
  message : String
  from_email : String
  recipient_list : List String
deriving DecidableEq, Repr

/-- Modelled from the spec: `Post.get_absolute_url` (`models.py` is not under
`src/`) — the canonical detail path built from the publish date and the
slug. -/
def get_absolute_url (p : Post) : String :=
  "/blog/" ++ toString p.publish.year ++ "/" ++ toString p.publish.month ++ "/" ++
    toString p.publish.day ++ "/" ++ p.slug ++ "/"

/-- `request.build_absolute_uri`: the request's scheme-and-host prefix glued
onto the path. -/
def build_absolute_uri (base path : String) : String := base ++ path

/-- The rendering context of `post_share`, plus the `send_mail` calls made
while handling the request. -/
structure ShareOk where
  post : Post
  form : EmailFormState
  sent : Bool
  mails : List Mail
deriving DecidableEq, Repr

/-- `post_share` (`views.py` lines 74-106): fetch the post by id and status
PUBLISHED; on POST with a valid form build the fixed-template subject and
message and call `send_mail` once with the fixed from-address and the
submitted recipient; on POST with an invalid form, or on GET, send
nothing. -/
def post_share (db : List Post) (base : String) (post_id : Nat)
    (method : Method) (data : EmailPostData) : Except ViewError ShareOk :=
  match get_object_or_404 db (fun p => decide (p.id = post_id ∧ p.status = Status.PUBLISHED)) with
  | .error e => .error e
  | .ok post =>
    match method with
    | .POST =>
      let errs := emailPostFormErrors data
      if errs = [] then
        let post_url := build_absolute_uri base (get_absolute_url post)
        let subject := data.name ++ " recommends you read " ++ post.title
        let message := "Read " ++ post.title ++ " at " ++ post_url ++ "\n\n" ++
          data.name ++ "\x27s comments: " ++ data.comments
        .ok ⟨post, .bound data [], true,
             [⟨subject, message, "danylov.lv@gmail.com", [data.«to»]⟩]⟩
      else
        .ok ⟨post, .bound data errs, false, []⟩
    | .GET => .ok ⟨post, .unbound, false, []⟩

/-- The fields `CommentForm` collects. -/
structure CommentData where
  name : String
  email : String
  body : String
deriving DecidableEq, Repr

/-- Modelled from the spec: `CommentForm` validation (`forms.py` is not under
`src/`): author name and body are required, the author email is required and
well-formed.  Field-keyed errors; valid when none. -/
def commentFormErrors (d : CommentData) : List String :=
  (if d.name = "" then ["name"] else []) ++
  (if emailOk d.email then [] else ["email"]) ++
  (if d.body = "" then ["body"] else [])

/-- The rendering context of `post_comment`, plus the `Comment` rows inserted
while handling the request. -/
structure CommentOk where
  post : Post
  errors : List String
  comment : Option Comment
  created : List Comment
deriving DecidableEq, Repr

/-- `post_comment` (`views.py` lines 109-131): `@require_POST` answers 405 to
any other verb before anything else runs; then fetch the post by id and
status PUBLISHED; a valid form saves exactly one `Comment` bound to the post
(`active` keeps its model default, true); an invalid form saves nothing. -/
def post_comment (db : List Post) (post_id : Nat) (method : Method)
    (d : CommentData) : Except ViewError CommentOk :=
  match method with
  | .GET => .error .methodNotAllowed
  | .POST =>
    match get_object_or_404 db (fun p => decide (p.id = post_id ∧ p.status = Status.PUBLISHED)) with
    | .error e => .error e
    | .ok post =>
      let errs := commentFormErrors d
      if errs = [] then
        let c : Comment := ⟨post.id, d.name, d.email, d.body, true⟩
        .ok ⟨post, [], some c, [c]⟩
      else
        .ok ⟨post, errs, none, []⟩

/-- Concrete valid share-form data used by the witnesses. -/
def wShareData : EmailPostData := ⟨"Alice", "alice@example.com", "bob@example.com", "nice"⟩

/-- The one message the share view sends for `wShareData` on `wP1`. -/
def wMail : Mail :=
  ⟨"Alice recommends you read Django",
   "Read Django at https://x/blog/2024/3/1/django/\n\nAlice\x27s comments: nice",
   "danylov.lv@gmail.com", ["bob@example.com"]⟩

/-- The context `post_share` renders for a valid POST of `wShareData` at post
id 1 on `wDb`. -/
def wShareOk : ShareOk := ⟨wP1, .bound wShareData [], true, [wMail]⟩

/-- Concrete valid comment-form data used by the witnesses. -/
def wCommentData : CommentData := ⟨"Carol", "carol@example.com", "great post"⟩

/-- Concrete invalid comment-form data (empty author name). -/
def wBadCommentData : CommentData := ⟨"", "carol@example.com", "great post"⟩

/-- The comment row created for `wCommentData` on post id 1. -/
def wComment : Comment := ⟨1, "Carol", "carol@example.com", "great post", true⟩

/-- The context `post_comment` renders for a valid POST of `wCommentData` at
post id 1 on `wDb`. -/
def wCommentOk : CommentOk := ⟨wP1, [], some wComment, [wComment]⟩

/-- The spec's `SearchResult`: a post annotated with its computed similarity
score.  Scores are exact rationals. -/
structure SearchResult where
  post : Post
  similarity : ℚ
deriving DecidableEq, Repr

/-- The `order_by('-similarity')` sort key as a relation: higher score
first. -/
def simRel (a b : SearchResult) : Prop := b.similarity ≤ a.similarity

instance : DecidableRel simRel := fun a b => by
  unfold simRel; infer_instance

instance : IsTotal SearchResult simRel :=
  ⟨fun a b => le_total b.similarity a.similarity⟩

instance : IsTrans SearchResult simRel :=
  ⟨fun _ _ _ h₁ h₂ => le_trans h₂ h₁⟩

/-- The search form the view renders: the fresh empty form when no query
parameter came, or the submitted data with its validation errors. -/
inductive SearchFormState where
  | unbound
  | bound (data : String) (errors : List String)
deriving DecidableEq, Repr

/-- Modelled from the spec: `SearchForm` validation (`forms.py` is not under
`src/`): the query field is required (non-empty); the spec's length bound is
delegated and left unmodelled.  Field-keyed errors; valid when none. -/
def searchFormErrors (q : String) : List String :=
  if q = "" then ["query"] else []

/-- The rendering context of `post_search`. -/
structure SearchOk where
  form : SearchFormState
  query : Option String
  results : List SearchResult
deriving DecidableEq, Repr

/-- `post_search` (`views.py` lines 134-156).  The external trigram
similarity is the parameter `sim`; on a valid query the view annotates every
published post with `sim query title + sim query body`, keeps the posts with
score at least 0.1 and orders them by descending similarity.  With no query
parameter: empty unbound form, no results.  With an invalid query: the bound
form with its errors, no results, query still none. -/
def post_search (db : List Post) (now : DateTime) (sim : String → String → ℚ)
    (queryParam : Option String) : SearchOk :=
  match queryParam with
  | none => ⟨.unbound, none, []⟩
  | some q =>
    if searchFormErrors q = [] then
      let scored := (published db now).map
        (fun p => SearchResult.mk p (sim q p.title + sim q p.body))
      ⟨.bound q [], some q,
       List.insertionSort simRel
         (scored.filter (fun r => decide ((1/10 : ℚ) ≤ r.similarity)))⟩
    else ⟨.bound q (searchFormErrors q), none, []⟩

/-- Concrete similarity function for the witnesses: 1 on equal strings, else
0 — an admissible score mapping into [0,1]. -/
def wSim : String → String → ℚ := fun a b => if a = b then 1 else 0

/-- Concrete similarity function that scores every pair 1 — an admissible
score mapping into [0,1] that the combined title+body score doubles. -/
def wSimOne : String → String → ℚ := fun _ _ => 1

theorem resolve_page_parse_fail (c : Nat) (s : String) (h : pyInt s = none) :
    resolve_page c (some s) = 1 := by
  simp [resolve_page, h]

theorem resolve_page_out_of_range (c : Nat) (s : String) (n : Int)
    (h : pyInt s = some n) (hr : n < 1 ∨ (num_pages c : Int) < n) :
    resolve_page c (some s) = num_pages c := by
  simp only [resolve_page, h]
  rw [if_pos hr]

/-- C4: every List request returns at most 3 posts for the resolved page; a
non-integer page parameter resolves to page 1; an out-of-range page number
resolves to the last page; pagination itself never produces an error (only
an unknown tag slug can). -/
theorem post_list_pagination_spec (db : List Post) (tags : List Tag)
    (now : DateTime) (pp : Option String) :
    (∀ tag_slug r, post_list db tags now tag_slug pp = .ok r →
      r.posts.length ≤ 3 ∧
      (∀ s, pp = some s → pyInt s = none → r.page = 1) ∧
      (∀ s n, pp = some s → pyInt s = some n →
        (n < 1 ∨ (r.numPages : Int) < n) → r.page = r.numPages)) ∧
    (∃ r, post_list db tags now none pp = Except.ok r) := by
  constructor
  · intro tag_slug r h
    have main : ∀ (pl : List Post) (tag : Option Tag),
        r = ⟨(pl.drop ((resolve_page pl.length pp - 1) * 3)).take 3,
             resolve_page pl.length pp, num_pages pl.length, tag⟩ →
        r.posts.length ≤ 3 ∧
        (∀ s, pp = some s → pyInt s = none → r.page = 1) ∧
        (∀ s n, pp = some s → pyInt s = some n →
          (n < 1 ∨ (r.numPages : Int) < n) → r.page = r.numPages) := by
      intro pl tag hr
      subst hr
      refine ⟨List.length_take_le .., ?_, ?_⟩
      · intro s hs hp
        subst hs
        exact resolve_page_parse_fail _ _ hp
      · intro s n hs hp hr
        subst hs
        exact resolve_page_out_of_range _ _ _ hp hr
    cases tag_slug with
    | none =>
      simp only [post_list] at h
      exact main _ none (by cases h; rfl)
    | some s =>
      simp only [post_list] at h
      cases hg : get_object_or_404 tags (fun t => decide (t.slug = s)) with
      | error e => rw [hg] at h; cases h
      | ok tag =>
        rw [hg] at h
        exact main _ (some tag) (by cases h; rfl)
  · exact ⟨_, rfl⟩

/-- Witness for C4 at a concrete store: four published posts, requested page
"7" (out of range, two pages exist) resolves to the last page with at most
three posts. -/
theorem post_list_pagination_witness :
    wListLast.posts.length ≤ 3 ∧ wListLast.page = wListLast.numPages := by
  have hm := (post_list_pagination_spec wDb [] wNow (some "7")).1 none wListLast rfl
  exact ⟨hm.1, hm.2.2 "7" 7 rfl (by decide) (by decide)⟩

theorem get404_eq_nil {db : List α} {cond : α → Bool} (h : db.filter cond = []) :
    get_object_or_404 db cond = .error .notFound := by
  unfold get_object_or_404
  rw [h]

theorem get404_eq_singleton {db : List α} {cond : α → Bool} {x : α}
    (h : db.filter cond = [x]) : get_object_or_404 db cond = .ok x := by
  unfold get_object_or_404
  rw [h]

theorem get404_ok_mem {db : List α} {cond : α → Bool} {x : α}
    (h : get_object_or_404 db cond = .ok x) : x ∈ db ∧ cond x = true := by
  unfold get_object_or_404 at h
  cases hf : db.filter cond with
  | nil => rw [hf] at h; cases h
  | cons y ys =>
    cases ys with
    | nil =>
      rw [hf] at h
      cases h
      exact List.mem_filter.mp (hf ▸ List.mem_singleton_self x)
    | cons z zs => rw [hf] at h; cases h

theorem post_detail_ok_inv {db : List Post} {cs : List Comment} {now : DateTime}
    {y m d : Nat} {slug : String} {r : DetailOk}
    (h : post_detail db cs now y m d slug = .ok r) :
    get_object_or_404 db (fun p => decide (p.status = Status.PUBLISHED ∧
      p.publish.year = y ∧ p.publish.month = m ∧ p.publish.day = d ∧
      p.slug = slug)) = .ok r.post ∧
    r.comments = cs.filter (fun c => decide (c.post = r.post.id ∧ c.active = true)) ∧
    r.similar = similar_posts db now r.post := by
  unfold post_detail at h
  cases hg : get_object_or_404 db (fun p => decide (p.status = Status.PUBLISHED ∧
      p.publish.year = y ∧ p.publish.month = m ∧ p.publish.day = d ∧
      p.slug = slug)) with
  | error e => rw [hg] at h; cases h
  | ok post =>
    rw [hg] at h
    cases h
    exact ⟨rfl, rfl, rfl⟩

/-- C1 (amended): `post_detail` returns the unique post with status PUBLISHED
whose publish date is the given year/month/day and whose slug matches
exactly; the publish timestamp is never compared with the request time.  If
no such post exists it fails with NotFound. -/
theorem post_detail_match_spec (db : List Post) (cs : List Comment) (now : DateTime)
    (y m d : Nat) (slug : String) :
    (db.filter (fun p => decide (p.status = Status.PUBLISHED ∧
        p.publish.year = y ∧ p.publish.month = m ∧ p.publish.day = d ∧
        p.slug = slug)) = [] →
      post_detail db cs now y m d slug = .error .notFound) ∧
    (∀ p, db.filter (fun p => decide (p.status = Status.PUBLISHED ∧
        p.publish.year = y ∧ p.publish.month = m ∧ p.publish.day = d ∧
        p.slug = slug)) = [p] →
      post_detail db cs now y m d slug =
        .ok ⟨p, cs.filter (fun c => decide (c.post = p.id ∧ c.active = true)),
             similar_posts db now p⟩) ∧
    (∀ r, post_detail db cs now y m d slug = .ok r →
      r.post ∈ db ∧ r.post.status = Status.PUBLISHED ∧ r.post.publish.year = y ∧
      r.post.publish.month = m ∧ r.post.publish.day = d ∧ r.post.slug = slug) := by
  refine ⟨?_, ?_, ?_⟩
  · intro h
    unfold post_detail
    rw [get404_eq_nil h]
  · intro p h
    unfold post_detail
    rw [get404_eq_singleton h]
  · intro r h
    obtain ⟨hg, -, -⟩ := post_detail_ok_inv h
    have := get404_ok_mem hg
    refine ⟨this.1, ?_⟩
    have hc := of_decide_eq_true this.2
    exact hc

/-- Witness for the amended C1: on the concrete store, the unique match at
(2024, 3, 1, "django") is returned with its context. -/
theorem post_detail_match_witness :
    post_detail wDb [] wNow 2024 3 1 "django" =
      .ok ⟨wP1, [], similar_posts wDb wNow wP1⟩ :=
  (post_detail_match_spec wDb [] wNow 2024 3 1 "django").2.1 wP1 (by decide)

/-- Counterexample for C1 as stated: `wFuture` has status PUBLISHED but a
publish timestamp in the future at request time `wNow`, so the store holds no
published post in the spec's sense; yet Detail for its date and slug returns
it instead of failing with NotFound, because the view never compares the
publish timestamp with the request time. -/
theorem post_detail_future_counterexample :
    published [wFuture] wNow = [] ∧
    post_detail [wFuture] [] wNow 2024 6 15 "future" = Except.ok ⟨wFuture, [], []⟩ :=
  ⟨rfl, rfl⟩

/-- C3: on every successful Detail request the similar-posts list has at most
4 rows, never holds the displayed post, holds only published posts sharing at
least one tag with it, is annotated with the true shared-tag count, and is
ordered by descending shared-tag count with ties broken by descending publish
timestamp. -/
theorem post_detail_similar_spec (db : List Post) (cs : List Comment) (now : DateTime)
    (y m d : Nat) (slug : String) (r : DetailOk)
    (h : post_detail db cs now y m d slug = .ok r) :
    r.similar.length ≤ 4 ∧
    (∀ a, a ∈ r.similar → a.post.id ≠ r.post.id ∧
      a.post.status = Status.PUBLISHED ∧ DateTime.le a.post.publish now ∧
      (∃ t, t ∈ a.post.tags ∧ t ∈ r.post.tags) ∧
      a.same_tags = a.post.tags.countP (fun t => decide (t ∈ r.post.tags))) ∧
    List.Pairwise (fun a b => b.same_tags < a.same_tags ∨
      (a.same_tags = b.same_tags ∧ DateTime.le b.post.publish a.post.publish)) r.similar := by
  obtain ⟨-, -, hs⟩ := post_detail_ok_inv h
  rw [hs]
  unfold similar_posts
  refine ⟨List.length_take_le .., ?_, ?_⟩
  · intro a ha
    have ha' := List.take_subset _ _ ha
    rw [List.mem_insertionSort] at ha'
    obtain ⟨p, hp, rfl⟩ := List.mem_map.mp ha'
    obtain ⟨hpub, hcond⟩ := List.mem_filter.mp hp
    obtain ⟨hshare, hne⟩ := of_decide_eq_true hcond
    obtain ⟨-, hcond'⟩ := List.mem_filter.mp hpub
    obtain ⟨hstat, hle⟩ := of_decide_eq_true hcond'
    exact ⟨hne, hstat, hle, hshare, rfl⟩
  · exact (List.sorted_insertionSort similarRel _).sublist (List.take_sublist _ _)

/-- Witness for C3 on the concrete store: the similar-posts rows for `wP1`
are `wP3` then `wP2`, each sharing one tag, later publish first. -/
theorem post_detail_similar_witness :
    wDetailOk.similar.length ≤ 4 ∧
    ((⟨wP3, 1⟩ : AnnotatedPost).post.id ≠ wDetailOk.post.id ∧
      (⟨wP3, 1⟩ : AnnotatedPost).post.status = Status.PUBLISHED) ∧
    List.Pairwise (fun a b => b.same_tags < a.same_tags ∨
      (a.same_tags = b.same_tags ∧ DateTime.le b.post.publish a.post.publish))
      wDetailOk.similar := by
  have h := post_detail_similar_spec wDb [] wNow 2024 3 1 "django" wDetailOk rfl
  have hm := h.2.1 ⟨wP3, 1⟩ (by decide)
  exact ⟨h.1, ⟨hm.1, hm.2.1⟩, h.2.2⟩

theorem post_share_ok_post {db : List Post} {base : String} {pid : Nat}
    {meth : Method} {d : EmailPostData} {p : Post}
    (h : get_object_or_404 db
      (fun p => decide (p.id = pid ∧ p.status = Status.PUBLISHED)) = .ok p) :
    ∃ r, post_share db base pid meth d = .ok r ∧ r.post = p := by
  unfold post_share
  rw [h]
  cases meth with
  | GET => exact ⟨_, rfl, rfl⟩
  | POST =>
    by_cases he : emailPostFormErrors d = []
    · simp only [he, if_pos]
      exact ⟨_, rfl, rfl⟩
    · simp only [if_neg he]
      exact ⟨_, rfl, rfl⟩

theorem post_comment_ok_post {db : List Post} {pid : Nat} {d : CommentData} {p : Post}
    (h : get_object_or_404 db
      (fun p => decide (p.id = pid ∧ p.status = Status.PUBLISHED)) = .ok p) :
    ∃ r, post_comment db pid Method.POST d = .ok r ∧ r.post = p := by
  unfold post_comment
  rw [h]
  by_cases he : commentFormErrors d = []
  · simp only [he, if_pos]
    exact ⟨_, rfl, rfl⟩
  · simp only [if_neg he]
    exact ⟨_, rfl, rfl⟩

/-- C2 (amended): Share and Comment fetch the post by id and status PUBLISHED
only — the publish timestamp is never compared with the request time.  They
fail with NotFound when no post with the given id has status PUBLISHED, and
proceed on the unique such post. -/
theorem share_comment_fetch_spec (db : List Post) (base : String) (pid : Nat)
    (meth : Method) (d : EmailPostData) (cd : CommentData) :
    (db.filter (fun p => decide (p.id = pid ∧ p.status = Status.PUBLISHED)) = [] →
      post_share db base pid meth d = .error .notFound ∧
      post_comment db pid Method.POST cd = .error .notFound) ∧
    (∀ p, db.filter (fun p => decide (p.id = pid ∧ p.status = Status.PUBLISHED)) = [p] →
      (∃ r, post_share db base pid meth d = .ok r ∧ r.post = p) ∧
      (∃ r, post_comment db pid Method.POST cd = .ok r ∧ r.post = p)) := by
  constructor
  · intro h
    constructor
    · unfold post_share
      rw [get404_eq_nil h]
    · unfold post_comment
      rw [get404_eq_nil h]
  · intro p h
    exact ⟨post_share_ok_post (get404_eq_singleton h),
           post_comment_ok_post (get404_eq_singleton h)⟩

/-- Witness for the amended C2: post id 1 of the concrete store has status
PUBLISHED, and both views proceed on it. -/
theorem share_comment_fetch_witness :
    (∃ r, post_share wDb "https://x" 1 Method.GET wShareData = .ok r ∧ r.post = wP1) ∧
    (∃ r, post_comment wDb 1 Method.POST wCommentData = .ok r ∧ r.post = wP1) :=
  (share_comment_fetch_spec wDb "https://x" 1 Method.GET wShareData wCommentData).2
    wP1 (by decide)

/-- Counterexample for C2 as stated: `wFuture` has status PUBLISHED but a
future publish timestamp, so the store holds no published post in the spec's
sense; yet Share and Comment both proceed on it instead of failing with
NotFound. -/
theorem share_comment_future_counterexample :
    published [wFuture] wNow = [] ∧
    post_share [wFuture] "https://x" 9 Method.GET wShareData =
      Except.ok ⟨wFuture, .unbound, false, []⟩ ∧
    post_comment [wFuture] 9 Method.POST wCommentData =
      Except.ok ⟨wFuture, [], some ⟨9, "Carol", "carol@example.com", "great post", true⟩,
                 [⟨9, "Carol", "carol@example.com", "great post", true⟩]⟩ :=
  ⟨rfl, rfl, rfl⟩

/-- C5: on a POST to Share with valid form data exactly one message goes out,
its recipient list is exactly the submitted "to" address, and its body holds
the post's absolute URL, the sender's name, the post title and the sender's
comment; with invalid form data no mail goes out and the submitted form is
redisplayed with its field errors. -/
theorem post_share_mail_spec (db : List Post) (base : String) (pid : Nat)
    (d : EmailPostData) (r : ShareOk)
    (h : post_share db base pid Method.POST d = .ok r) :
    (emailPostFormErrors d = [] →
      r.sent = true ∧
      ∃ m, r.mails = [m] ∧ m.recipient_list = [d.«to»] ∧
        List.IsInfix (build_absolute_uri base (get_absolute_url r.post)).data m.message.data ∧
        List.IsInfix d.name.data m.message.data ∧
        List.IsInfix r.post.title.data m.message.data ∧
        List.IsInfix d.comments.data m.message.data) ∧
    (emailPostFormErrors d ≠ [] →
      r.sent = false ∧ r.mails = [] ∧
      r.form = .bound d (emailPostFormErrors d)) := by
  unfold post_share at h
  cases hg : get_object_or_404 db
      (fun p => decide (p.id = pid ∧ p.status = Status.PUBLISHED)) with
  | error e => rw [hg] at h; cases h
  | ok post =>
    rw [hg] at h
    by_cases he : emailPostFormErrors d = []
    · simp only [he, if_pos] at h
      cases h
      refine ⟨fun _ => ⟨rfl, ⟨_, rfl, rfl, ?_, ?_, ?_, ?_⟩⟩, fun hne => absurd he hne⟩
      · exact ⟨("Read " ++ post.title ++ " at ").data,
               ("\n\n" ++ d.name ++ "\x27s comments: " ++ d.comments).data,
               by simp [String.data_append, List.append_assoc]⟩
      · exact ⟨("Read " ++ post.title ++ " at " ++
                 build_absolute_uri base (get_absolute_url post) ++ "\n\n").data,
               ("\x27s comments: " ++ d.comments).data,
               by simp [String.data_append, List.append_assoc]⟩
      · exact ⟨("Read ").data,
               (" at " ++ build_absolute_uri base (get_absolute_url post) ++ "\n\n" ++
                 d.name ++ "\x27s comments: " ++ d.comments).data,
               by simp [String.data_append, List.append_assoc]⟩
      · exact ⟨("Read " ++ post.title ++ " at " ++
                 build_absolute_uri base (get_absolute_url post) ++ "\n\n" ++
                 d.name ++ "\x27s comments: ").data, ([] : List Char),
               by simp [String.data_append, List.append_assoc]⟩
    · simp only [if_neg he] at h
      cases h
      exact ⟨fun hne => absurd hne he, fun _ => ⟨rfl, rfl, rfl⟩⟩

/-- Witness for C5: the concrete valid POST sends exactly one message to the
submitted recipient. -/
theorem post_share_mail_witness :
    emailPostFormErrors wShareData = [] ∧ wShareOk.sent = true ∧
    ∃ m, wShareOk.mails = [m] ∧ m.recipient_list = [wShareData.«to»] := by
  have h := (post_share_mail_spec wDb "https://x" 1 wShareData wShareOk rfl).1 rfl
  obtain ⟨hs, m, hm, hr, -⟩ := h
  exact ⟨rfl, hs, m, hm, hr⟩

/-- C10: every message the Share view sends has the fixed from-address
`danylov.lv@gmail.com`, whatever the submitted sender email and the other
inputs are. -/
theorem post_share_from_address_spec (db : List Post) (base : String) (pid : Nat)
    (meth : Method) (d : EmailPostData) (r : ShareOk)
    (h : post_share db base pid meth d = .ok r) :
    ∀ m, m ∈ r.mails → m.from_email = "danylov.lv@gmail.com" := by
  unfold post_share at h
  cases hg : get_object_or_404 db
      (fun p => decide (p.id = pid ∧ p.status = Status.PUBLISHED)) with
  | error e => rw [hg] at h; cases h
  | ok post =>
    rw [hg] at h
    cases meth with
    | GET =>
      cases h
      intro m hm
      cases hm
    | POST =>
      by_cases he : emailPostFormErrors d = []
      · simp only [he, if_pos] at h
        cases h
        intro m hm
        rw [List.mem_singleton] at hm
        rw [hm]
      · simp only [if_neg he] at h
        cases h
        intro m hm
        cases hm

/-- Witness for C10 on the concrete sent message. -/
theorem post_share_from_address_witness :
    wMail.from_email = "danylov.lv@gmail.com" :=
  post_share_from_address_spec wDb "https://x" 1 Method.POST wShareData wShareOk
    rfl wMail (List.mem_singleton_self wMail)

/-- C6: Comment accepts only POST (any other verb is rejected with
MethodNotAllowed); a POST with valid fields creates exactly one `Comment`
bound to the fetched post with `active` true by default; a POST with invalid
fields creates nothing and surfaces a non-empty set of field errors. -/
theorem post_comment_spec (db : List Post) (pid : Nat) (d : CommentData) :
    (∀ meth, meth ≠ Method.POST → post_comment db pid meth d = .error .methodNotAllowed) ∧
    (∀ r, post_comment db pid Method.POST d = .ok r →
      (commentFormErrors d = [] →
        ∃ c, r.created = [c] ∧ r.comment = some c ∧ c.post = r.post.id ∧ c.active = true) ∧
      (commentFormErrors d ≠ [] →
        r.created = [] ∧ r.comment = none ∧ r.errors = commentFormErrors d ∧ r.errors ≠ [])) := by
  constructor
  · intro meth hm
    cases meth with
    | GET => rfl
    | POST => exact absurd rfl hm
  · intro r h
    unfold post_comment at h
    cases hg : get_object_or_404 db
        (fun p => decide (p.id = pid ∧ p.status = Status.PUBLISHED)) with
    | error e => rw [hg] at h; cases h
    | ok post =>
      rw [hg] at h
      by_cases he : commentFormErrors d = []
      · simp only [he, if_pos] at h
        cases h
        exact ⟨fun _ => ⟨_, rfl, rfl, rfl, rfl⟩, fun hne => absurd he hne⟩
      · simp only [if_neg he] at h
        cases h
        exact ⟨fun he' => absurd he' he, fun _ => ⟨rfl, rfl, rfl, he⟩⟩

/-- Witness for C6: GET is rejected with 405; the concrete valid POST creates
exactly one active comment bound to post 1; the empty-name POST creates
nothing and surfaces errors. -/
theorem post_comment_method_witness :
    post_comment wDb 1 Method.GET wCommentData = .error .methodNotAllowed ∧
    (∃ c, wCommentOk.created = [c] ∧ wCommentOk.comment = some c ∧
      c.post = wCommentOk.post.id ∧ c.active = true) ∧
    ((⟨wP1, ["name"], none, []⟩ : CommentOk).created = [] ∧
      (⟨wP1, ["name"], none, []⟩ : CommentOk).errors ≠ []) := by
  refine ⟨(post_comment_spec wDb 1 wCommentData).1 Method.GET (by decide), ?_, ?_⟩
  · exact ((post_comment_spec wDb 1 wCommentData).2 wCommentOk rfl).1 rfl
  · have h := ((post_comment_spec wDb 1 wBadCommentData).2 ⟨wP1, ["name"], none, []⟩ rfl).2
      (by decide)
    exact ⟨h.1, h.2.2.2⟩

theorem post_search_results_eq (db : List Post) (now : DateTime)
    (sim : String → String → ℚ) (q : String) (hq : searchFormErrors q = []) :
    (post_search db now sim (some q)).results =
      List.insertionSort simRel
        (((published db now).map
          (fun p => SearchResult.mk p (sim q p.title + sim q p.body))).filter
          (fun r => decide ((1/10 : ℚ) ≤ r.similarity))) := by
  simp [post_search, hq]

/-- C7: for every Search request with a valid query, each post's score is the
sum of the trigram similarity of the query with its title and with its body;
exactly the published posts whose combined score is at least 0.1 are
returned, ordered by descending similarity. -/
theorem post_search_results_spec (db : List Post) (now : DateTime)
    (sim : String → String → ℚ) (q : String) (hq : searchFormErrors q = []) :
    (∀ r, r ∈ (post_search db now sim (some q)).results ↔
      (r.post ∈ published db now ∧
       r.similarity = sim q r.post.title + sim q r.post.body ∧
       (1/10 : ℚ) ≤ r.similarity)) ∧
    List.Pairwise (fun a b : SearchResult => b.similarity ≤ a.similarity)
      (post_search db now sim (some q)).results := by
  rw [post_search_results_eq db now sim q hq]
  constructor
  · intro r
    rw [List.mem_insertionSort, List.mem_filter, List.mem_map]
    constructor
    · rintro ⟨⟨p, hp, rfl⟩, hg⟩
      exact ⟨hp, rfl, of_decide_eq_true hg⟩
    · rintro ⟨hp, hsim, hge⟩
      refine ⟨⟨r.post, hp, ?_⟩, decide_eq_true hge⟩
      rw [← hsim]
  · exact List.sorted_insertionSort simRel _

/-- Witness for C7 at a concrete query: the form validates and the returned
rows are sorted by descending similarity. -/
theorem post_search_results_witness :
    searchFormErrors "Django" = [] ∧
    List.Pairwise (fun a b : SearchResult => b.similarity ≤ a.similarity)
      (post_search wDb wNow wSim (some "Django")).results :=
  ⟨rfl, (post_search_results_spec wDb wNow wSim "Django" rfl).2⟩

/-- C8 (amended): when the external similarity maps every pair into [0,1],
each score the Search view annotates lies in [0,2] — it is the sum of two
scores in [0,1], so it can exceed 1. -/
theorem post_search_similarity_bounds (db : List Post) (now : DateTime)
    (sim : String → String → ℚ) (qp : Option String)
    (hsim : ∀ a b, 0 ≤ sim a b ∧ sim a b ≤ 1) :
    ∀ r ∈ (post_search db now sim qp).results,
      0 ≤ r.similarity ∧ r.similarity ≤ 2 := by
  intro r hr
  cases qp with
  | none => simp [post_search] at hr
  | some q =>
    by_cases hq : searchFormErrors q = []
    · rw [post_search_results_eq db now sim q hq, List.mem_insertionSort,
        List.mem_filter] at hr
      obtain ⟨p, -, rfl⟩ := List.mem_map.mp hr.1
      constructor
      · exact add_nonneg (hsim q p.title).1 (hsim q p.body).1
      · calc sim q p.title + sim q p.body ≤ 1 + 1 :=
              add_le_add (hsim q p.title).2 (hsim q p.body).2
          _ = 2 := by norm_num
    · simp [post_search, hq] at hr

/-- Witness for the amended C8: with the constant-1 similarity the single
returned row scores 2, inside [0,2]. -/
theorem post_search_similarity_bounds_witness :
    0 ≤ (⟨wP1, 2⟩ : SearchResult).similarity ∧
    (⟨wP1, 2⟩ : SearchResult).similarity ≤ 2 :=
  post_search_similarity_bounds [wP1] wNow wSimOne (some "x")
    (fun a b => by constructor <;> norm_num [wSimOne])
    ⟨wP1, 2⟩
    (by rw [show (post_search [wP1] wNow wSimOne (some "x")).results = [⟨wP1, 2⟩] from
          by with_unfolding_all rfl]
        exact List.mem_singleton_self _)

/-- Counterexample for C8 as stated: the external similarity scores every
pair 1 (an admissible [0,1] score); the annotated combined score of the
returned post is 2, outside [0,1]. -/
theorem post_search_score_counterexample :
    (post_search [wP1] wNow wSimOne (some "x")).results = [⟨wP1, 2⟩] ∧
    ¬((⟨wP1, 2⟩ : SearchResult).similarity ≤ 1) := by
  constructor
  · with_unfolding_all rfl
  · norm_num [SearchResult.similarity]

/-- C9 (amended): with no query parameter Search succeeds with the empty
unbound form, no query and no results; with a present but invalid query it
succeeds with no query and no results, but renders the redisplayed bound
form carrying its field errors rather than an empty form.  It never fails. -/
theorem post_search_no_query_spec (db : List Post) (now : DateTime)
    (sim : String → String → ℚ) :
    post_search db now sim none = ⟨.unbound, none, []⟩ ∧
    (∀ q, searchFormErrors q ≠ [] →
      post_search db now sim (some q) = ⟨.bound q (searchFormErrors q), none, []⟩) := by
  constructor
  · rfl
  · intro q hq
    simp [post_search, hq]

/-- Witness for the amended C9 at the empty query string. -/
theorem post_search_no_query_witness :
    post_search ([] : List Post) wNow wSimOne none = ⟨.unbound, none, []⟩ ∧
    post_search ([] : List Post) wNow wSimOne (some "") =
      ⟨.bound "" ["query"], none, []⟩ :=
  ⟨(post_search_no_query_spec [] wNow wSimOne).1,
   (post_search_no_query_spec [] wNow wSimOne).2 "" (by decide)⟩

/-- Counterexample for C9 as stated: for the present-but-invalid query "" the
result list is empty and the request succeeds, but the rendered form is the
bound form with a field error, not an empty search form. -/
theorem post_search_invalid_form_counterexample :
    (post_search ([] : List Post) wNow wSimOne (some "")).results = [] ∧
    (post_search ([] : List Post) wNow wSimOne (some "")).form ≠
      SearchFormState.unbound := by
  constructor
  · rfl
  · intro h
    rw [show (post_search ([] : List Post) wNow wSimOne (some "")).form =
        SearchFormState.bound "" ["query"] from rfl] at h
    cases h
